import Mathlib

/-!
Shallow embedding of the document-summarization job pipeline
(`backend/app/tasks.py`, `backend/app/main.py`, `backend/app/ai_providers/*`)
and proofs about its retry/backoff policy, provider fallback ordering,
cost estimation and response parsing.

Timestamps are abstracted as natural numbers; the external collaborators
(document extraction, the provider HTTP calls, the random draws of demo
mode) are passed in as explicit parameters.
-/

/-- Job status enum (`models.JobStatus`). -/
inductive JobStatus
  | pending
  | processing
  | completed
  | failed
  | cancelled
  deriving DecidableEq, Repr

/-- Provider identifier enum (`models.AIProvider`, imported as `AIProviderEnum`). -/
inductive AIProviderEnum
  | openai_gpt4
  | openai_gpt35
  | anthropic_claude
  | google_gemini
  deriving DecidableEq, Repr

/-- The string value of each enum member (`.value` in Python). -/
def AIProviderEnum.value : AIProviderEnum → String
  | .openai_gpt4 => "openai_gpt4"
  | .openai_gpt35 => "openai_gpt35"
  | .anthropic_claude => "anthropic_claude"
  | .google_gemini => "google_gemini"

/-- A typed entity entry, the Python dict of shape `\x7b"type": ..., "value": ...\x7d`. -/
structure Entity where
  type : String
  value : String
  deriving DecidableEq, Repr

/-- `ai_providers.base.SummaryResult`.  Dollar costs are modelled as rationals. -/
structure SummaryResult where
  summary : String
  key_points : List String
  entities : List Entity
  tokens_used : Nat
  cost : ℚ
  provider_used : String
  deriving DecidableEq, Repr

/-- The fields of a `models.Job` row that the lifecycle driver reads or writes. -/
structure Job where
  status : JobStatus
  retry_count : Nat
  max_retries : Nat
  summary : Option String
  key_points : List String
  entities : List Entity
  actual_tokens : Option Nat
  actual_cost : Option ℚ
  error_message : Option String
  started_at : Option Nat
  completed_at : Option Nat
  processing_time : Option Nat
  deriving DecidableEq, Repr

/-- A freshly submitted job (`models.Job` column defaults: status pending,
retry_count 0, max_retries 3, result fields empty). -/
def freshJob : Job :=
  { status := JobStatus.pending
    retry_count := 0
    max_retries := 3
    summary := none
    key_points := []
    entities := []
    actual_tokens := none
    actual_cost := none
    error_message := none
    started_at := none
    completed_at := none
    processing_time := none }

/-- What one worker run of `tasks.process_document` does to the outside world
besides mutating the job row. -/
inductive TaskOutcome
  | success (summary_preview : String)
  | retryScheduled (countdown : Nat) (err : String)
  | raised (err : String)
  deriving DecidableEq, Repr

/-- The `except Exception` failure handler of `tasks.process_document`
(tasks.py lines 343-386): set status failed, record the error, increment
`retry_count`; if still under `max_retries` (and the task has a bound `self`),
put the job back to pending and schedule a retry after `2 ** retry_count`
seconds, else stamp `completed_at` and re-raise. -/
def handle_failure (job : Job) (e : String) (selfPresent : Bool) (tEnd : Nat) :
    Job × TaskOutcome :=
  let j1 : Job :=
    { job with
        status := JobStatus.failed
        error_message := some e
        retry_count := job.retry_count + 1 }
  if j1.retry_count < j1.max_retries ∧ selfPresent then
    ({ j1 with status := JobStatus.pending },
      TaskOutcome.retryScheduled (2 ^ j1.retry_count) e)
  else
    ({ j1 with completed_at := some tEnd }, TaskOutcome.raised e)

/-- The success write-back of `tasks.process_document` (tasks.py lines 186-195):
copy the provider result into the job and mark it completed.  It does not
inspect the job's current status before overwriting it. -/
def write_success (job : Job) (result : SummaryResult) (tStart tEnd : Nat) : Job :=
  { job with
      summary := some result.summary
      key_points := result.key_points
      entities := result.entities
      actual_tokens := some result.tokens_used
      actual_cost := some result.cost
      status := JobStatus.completed
      completed_at := some tEnd
      processing_time := some (tEnd - tStart) }

/-- One worker run of `tasks.process_document` on a job: mark it processing,
extract text (the collaborator's answer is the `extracted` parameter; the empty
string raises `ValueError("No text could be extracted from document")`), call
the provider chain (its outcome is the `summarizeOutcome` parameter), and
either write back the result or enter the failure handler. -/
def process_document (job : Job) (extracted : String)
    (summarizeOutcome : Except String SummaryResult)
    (selfPresent : Bool) (tStart tEnd : Nat) : Job × TaskOutcome :=
  let j1 : Job := { job with status := JobStatus.processing, started_at := some tStart }
  if extracted = "" then
    handle_failure j1 "No text could be extracted from document" selfPresent tEnd
  else
    match summarizeOutcome with
    | Except.error e => handle_failure j1 e selfPresent tEnd
    | Except.ok result =>
        (write_success j1 result tStart tEnd,
          TaskOutcome.success (result.summary.take 200 ++ "..."))

/-- `main.cancel_job` (main.py lines 398-413): only a pending or processing job
may be cancelled; cancellation stamps `completed_at`. -/
def cancel_job (job : Job) (now : Nat) : Except String Job :=
  if job.status = JobStatus.pending ∨ job.status = JobStatus.processing then
    Except.ok { job with status := JobStatus.cancelled, completed_at := some now }
  else
    Except.error "Job cannot be cancelled"

/-- Run the worker repeatedly on a job whose extraction yields `text` and whose
provider chain fails with the successive errors in `errs` (one per attempt),
following scheduled retries; collect the scheduled backoff delays.  Stops when
an attempt ends without scheduling a retry, or when `errs` runs out. -/
def run_attempts (text : String) (selfPresent : Bool) (t : Nat) :
    List String → Job → List Nat × Job
  | [], j => ([], j)
  | e :: rest, j =>
    match process_document j text (Except.error e) selfPresent t t with
    | (j2, TaskOutcome.retryScheduled d _) =>
        let r := run_attempts text selfPresent t rest j2
        (d :: r.1, r.2)
    | (j2, _) => ([], j2)

/-- A configured provider client (`ai_providers.base.AIProvider`).  The backend
call `summarize` and the token estimator are the provider's opaque
capabilities; `available` is what `is_available()` returns. -/
structure AIProvider where
  available : Bool
  input_cost_per_1k : ℚ
  output_cost_per_1k : ℚ
  estimate_tokens : String → Nat
  summarize : String → Except String SummaryResult

/-- `AIProvider.estimate_cost` (base.py lines 29-32): the shared cost formula,
per-1000-token rates applied with exact (true) division. -/
def AIProvider.estimate_cost (p : AIProvider) (input_tokens output_tokens : Nat) : ℚ :=
  (input_tokens : ℚ) / 1000 * p.input_cost_per_1k +
    (output_tokens : ℚ) / 1000 * p.output_cost_per_1k

/-- The manager's `self.providers` dict: insertion-ordered, unique keys. -/
abbrev AIProviderManager := List (AIProviderEnum × AIProvider)

/-- `AIProviderManager.get_provider`: dict lookup (first matching key). -/
def get_provider (m : AIProviderManager) (provider_type : AIProviderEnum) :
    Option AIProvider :=
  (m.find? (fun pr => pr.1 == provider_type)).map Prod.snd

/-- `AIProviderManager.get_available_providers` (manager.py lines 41-46):
registry iteration order, filtered to available providers. -/
def get_available_providers (m : AIProviderManager) : List AIProviderEnum :=
  (m.filter (fun pr => pr.2.available)).map Prod.fst

/-- Splitting a character list at every occurrence of a separator (leftmost,
non-overlapping).  The fuel argument bounds the recursion by the text length;
`acc` holds the characters of the current piece in reverse. -/
def py_split_sub_aux (sep : List Char) :
    Nat → List Char → List Char → List (List Char)
  | _, [], acc => [acc.reverse]
  | 0, s, acc => [acc.reverse ++ s]
  | fuel + 1, c :: rest, acc =>
    if sep.isPrefixOf (c :: rest) then
      acc.reverse :: py_split_sub_aux sep fuel ((c :: rest).drop sep.length) []
    else
      py_split_sub_aux sep fuel rest (c :: acc)

/-- Python's `s.split(sep)` with an explicit (non-empty) separator. -/
def pySplit (s sep : String) : List String :=
  (py_split_sub_aux sep.data (s.data.length + 1) s.data []).map String.mk

/-- Splitting at every character satisfying `p`, keeping empty pieces. -/
def py_split_pred_aux (p : Char → Bool) :
    List Char → List Char → List (List Char)
  | [], acc => [acc.reverse]
  | c :: rest, acc =>
    if p c then acc.reverse :: py_split_pred_aux p rest []
    else py_split_pred_aux p rest (c :: acc)

/-- Python's `str.strip()` without arguments: remove leading and trailing
whitespace. -/
def pyStrip (s : String) : String :=
  String.mk
    (((s.data.dropWhile Char.isWhitespace).reverse.dropWhile
      Char.isWhitespace).reverse)

/-- Python's `s.startswith(pre)`. -/
def pyStartsWith (s pre : String) : Bool :=
  pre.data.isPrefixOf s.data

/-- Python's `s.lstrip(chars)`: drop the leading characters drawn from a set. -/
def pyLstrip (s : String) (p : Char → Bool) : String :=
  String.mk (s.data.dropWhile p)

/-- `py_split_ws s` is Python's `s.split()`: split on whitespace runs,
dropping empty pieces. -/
def py_split_ws (s : String) : List String :=
  ((py_split_pred_aux Char.isWhitespace s.data []).map String.mk).filter
    (fun w => w != "")

/-- `AIProviderManager._demo_summarize` (manager.py lines 90-131).  The random
delay is irrelevant to the produced value; the random failure draw
(`random.random() < settings.demo_failure_rate`) is the `demoFails` parameter. -/
def demo_summarize (text : String) (provider : AIProviderEnum) (demoFails : Bool) :
    Except String SummaryResult :=
  if demoFails then Except.error "Demo mode: Simulated provider failure"
  else
    let words := (py_split_ws text).take 100
    let summary :=
      "This is a demo summary of a document containing " ++ toString text.length ++
        " characters. The document appears to discuss: " ++
        String.intercalate " " (words.take 20) ++ "..."
    let key_points := [
      "Demo key point 1: Document processing successful",
      "Demo key point 2: AI provider simulation active",
      "Demo key point 3: Processed " ++ toString text.length ++ " characters",
      "Demo key point 4: Cost estimation available",
      "Demo key point 5: Fallback mechanism ready"]
    let entities := [
      Entity.mk "organization" "Demo Corp",
      Entity.mk "date" "2024-01-15",
      Entity.mk "person" "John Demo",
      Entity.mk "location" "Demo City",
      Entity.mk "money" "$1,234.56"]
    let tokens := text.length / 4
    let cost : ℚ := (tokens : ℚ) * (1 / 1000)
    Except.ok
      { summary := summary
        key_points := key_points
        entities := entities
        tokens_used := tokens
        cost := cost
        provider_used := "Demo/" ++ provider.value }

/-- The final loop of `summarize_with_fallback` (manager.py lines 78-86): walk
the available providers, skip the ones in `[primary_provider, fallback_provider]`,
attempt each and return the first success; exhausted, raise the terminal error.
The second component accumulates the providers actually invoked. -/
def try_remaining (m : AIProviderManager) (text : String)
    (primary_provider : AIProviderEnum) (fallback_provider : Option AIProviderEnum) :
    List AIProviderEnum → List AIProviderEnum →
      Except String SummaryResult × List AIProviderEnum
  | [], trace => (Except.error "All AI providers failed or unavailable", trace)
  | pid :: rest, trace =>
    if pid == primary_provider || fallback_provider == some pid then
      try_remaining m text primary_provider fallback_provider rest trace
    else
      match get_provider m pid with
      | none => try_remaining m text primary_provider fallback_provider rest trace
      | some p =>
        match p.summarize text with
        | Except.ok r => (Except.ok r, trace ++ [pid])
        | Except.error _ =>
            try_remaining m text primary_provider fallback_provider rest (trace ++ [pid])

/-- `AIProviderManager.summarize_with_fallback` (manager.py lines 48-88).
Returns the call's result together with the trace of providers whose
`summarize` was invoked (in invocation order); demo mode invokes none. -/
def summarize_with_fallback (m : AIProviderManager) (text : String)
    (primary_provider : AIProviderEnum) (fallback_provider : Option AIProviderEnum)
    (demo_mode : Bool) (demoFails : Bool) :
    Except String SummaryResult × List AIProviderEnum :=
  if demo_mode then (demo_summarize text primary_provider demoFails, [])
  else
    let primaryAttempt : Option SummaryResult × List AIProviderEnum :=
      match get_provider m primary_provider with
      | some p =>
        if p.available then
          match p.summarize text with
          | Except.ok r => (some r, [primary_provider])
          | Except.error _ => (none, [primary_provider])
        else (none, [])
      | none => (none, [])
    match primaryAttempt with
    | (some r, tr) => (Except.ok r, tr)
    | (none, tr1) =>
      let fallbackAttempt : Option SummaryResult × List AIProviderEnum :=
        match fallback_provider with
        | some f =>
          match get_provider m f with
          | some p =>
            if p.available then
              match p.summarize text with
              | Except.ok r => (some r, tr1 ++ [f])
              | Except.error _ => (none, tr1 ++ [f])
            else (none, tr1)
          | none => (none, tr1)
        | none => (none, tr1)
      match fallbackAttempt with
      | (some r, tr) => (Except.ok r, tr)
      | (none, tr2) =>
        try_remaining m text primary_provider fallback_provider
          (get_available_providers m) tr2

/-- `AIProviderManager.estimate_cost` (manager.py lines 133-140): token estimate
from the provider, output heuristic `tokens // 5`, shared cost formula;
unknown provider id yields 0.0. -/
def AIProviderManager.estimate_cost (m : AIProviderManager) (text : String)
    (provider : AIProviderEnum) : ℚ :=
  match get_provider m provider with
  | some p =>
    let tokens := p.estimate_tokens text
    let output_tokens := tokens / 5
    p.estimate_cost tokens output_tokens
  | none => 0

/-- `OpenAIProvider.estimate_tokens` (openai_provider.py lines 89-95): use the
exact `tiktoken` encoder when obtainable, else fall back to `len(text) // 4`.
The encoder is an external library, modelled as an optional function. -/
def OpenAIProvider.estimate_tokens (exactEncoder : Option (String → Nat))
    (text : String) : Nat :=
  match exactEncoder with
  | some enc => enc text
  | none => text.length / 4

/-- `AnthropicProvider.estimate_tokens` (anthropic_provider.py lines 77-79). -/
def AnthropicProvider.estimate_tokens (text : String) : Nat :=
  text.length / 4

/-- `GoogleProvider.estimate_tokens` (google_provider.py lines 77-79). -/
def GoogleProvider.estimate_tokens (text : String) : Nat :=
  text.length / 4

/-- Python's substring test `sub in s`. -/
def pyContains (s sub : String) : Bool :=
  decide (2 ≤ (pySplit s sub).length)

/-- Response-parsing of `OpenAIProvider.summarize` (openai_provider.py lines
65-66): `content.split("SUMMARY:")[1].split("KEY POINTS:")[0].strip()` when
`"SUMMARY:" in content`, else the empty string. -/
def OpenAIProvider.parse_summary (content : String) : String :=
  if pyContains content "SUMMARY:" then
    pyStrip ((pySplit ((pySplit content "SUMMARY:").getD 1 "") "KEY POINTS:").getD 0 "")
  else ""

/-- Response-parsing of `AnthropicProvider.summarize` (anthropic_provider.py
lines 53-54): the same split-on-markers expression. -/
def AnthropicProvider.parse_summary (content : String) : String :=
  if pyContains content "SUMMARY:" then
    pyStrip ((pySplit ((pySplit content "SUMMARY:").getD 1 "") "KEY POINTS:").getD 0 "")
  else ""

/-- Response-parsing of `GoogleProvider.summarize` (google_provider.py lines
53-54): the same split-on-markers expression. -/
def GoogleProvider.parse_summary (content : String) : String :=
  if pyContains content "SUMMARY:" then
    pyStrip ((pySplit ((pySplit content "SUMMARY:").getD 1 "") "KEY POINTS:").getD 0 "")
  else ""

/-- Modelled from the spec's words, for comparison with the code's parser:
"locate a `SUMMARY:` marker and take everything up to the next recognized
section marker as the summary body (trimmed)", the recognized section markers
of the prompt format being `KEY POINTS:` and `ENTITIES:`. -/
def spec_summary_body (content : String) : String :=
  match pySplit content "SUMMARY:" with
  | [] => ""
  | [_] => ""
  | _ :: rest =>
    let afterMarker := String.intercalate "SUMMARY:" rest
    pyStrip
      ((pySplit ((pySplit afterMarker "KEY POINTS:").getD 0 "") "ENTITIES:").getD 0 "")

/-- The bullet glyphs of `AIProvider.extract_key_points` / `lstrip('•-* ')`. -/
def is_bullet_char (c : Char) : Bool :=
  c = '•' || c = '-' || c = '*'

/-- `AIProvider.extract_key_points` (base.py lines 38-45): split on newlines,
strip each line, keep the lines starting with a bullet glyph, strip leading
glyphs/spaces, return the first 5. -/
def extract_key_points (text : String) : List String :=
  let lines := (pySplit text "\n").map pyStrip
  let pts := lines.filter (fun line =>
    line != "" &&
      (pyStartsWith line "•" || pyStartsWith line "-" || pyStartsWith line "*"))
  (pts.map (fun line => pyLstrip line (fun c => is_bullet_char c || c = ' '))).take 5

/-- The literal regex pattern strings of `AIProvider.extract_entities`
(base.py lines 53, 58, 63, 68). -/
def email_pattern : String :=
  "\\b[A-Za-z0-9._%+-]+@[A-Za-z0-9.-]+\\.[A-Z|a-z]\x7b2,\x7d\\b"

def url_pattern : String :=
  "http[s]?://(?:[a-zA-Z]|[0-9]|[$-_@.&+]|[!*\\\\(\\\\),]|(?:%[0-9a-fA-F][0-9a-fA-F]))+"

def date_pattern : String :=
  "\\b\\d\x7b1,2\x7d[/-]\\d\x7b1,2\x7d[/-]\\d\x7b2,4\x7d\\b"

def money_pattern : String :=
  "\\$[\\d,]+\\.?\\d*"

/-- `AIProvider.extract_entities` (base.py lines 47-72): run the four fixed
patterns over the original source text, tag and concatenate the matches in
the fixed category order, truncate to 10.  `re.findall` is an external library
call, modelled as the abstract `findall` parameter (pattern, text → matches). -/
def extract_entities (findall : String → String → List String) (text : String) :
    List Entity :=
  let entities :=
    ((findall email_pattern text).map (fun v => Entity.mk "email" v)) ++
    ((findall url_pattern text).map (fun v => Entity.mk "url" v)) ++
    ((findall date_pattern text).map (fun v => Entity.mk "date" v)) ++
    ((findall money_pattern text).map (fun v => Entity.mk "money" v))
  entities.take 10

/-- Whether an attempt on `pid` would succeed: the provider is registered and
its `summarize` call on this text returns a result. -/
def attempt_succeeds (m : AIProviderManager) (text : String)
    (pid : AIProviderEnum) : Bool :=
  match get_provider m pid with
  | some p => (p.summarize text).isOk
  | none => false

/-- Whether `pid` resolves to a configured, available provider. -/
def is_attemptable (m : AIProviderManager) (pid : AIProviderEnum) : Bool :=
  match get_provider m pid with
  | some p => p.available
  | none => false

/-- Attempt the candidates in order, stopping after the first success:
yields the providers actually invoked. -/
def attempts_until_success (m : AIProviderManager) (text : String) :
    List AIProviderEnum → List AIProviderEnum
  | [] => []
  | pid :: rest =>
    pid ::
      (if attempt_succeeds m text pid then []
       else attempts_until_success m text rest)

/-- The candidate order of the non-demo path as the code implements it:
the primary when configured and available, then the fallback when present,
configured and available (even when it equals the primary), then the
remaining available providers in registry order. -/
def fallback_chain (m : AIProviderManager) (primary : AIProviderEnum)
    (fb : Option AIProviderEnum) : List AIProviderEnum :=
  (if is_attemptable m primary then [primary] else []) ++
  (match fb with
   | some f => if is_attemptable m f then [f] else []
   | none => []) ++
  ((get_available_providers m).filter
    (fun pid => !(pid == primary || fb == some pid)))

/-- Modelled from the spec's words, for comparison with the code: the claimed
candidate order, in which the fallback is attempted only when it is distinct
from the primary. -/
def spec_candidates_distinct (m : AIProviderManager) (primary : AIProviderEnum)
    (fb : Option AIProviderEnum) : List AIProviderEnum :=
  (if is_attemptable m primary then [primary] else []) ++
  (match fb with
   | some f => if f != primary && is_attemptable m f then [f] else []
   | none => []) ++
  ((get_available_providers m).filter
    (fun pid => !(pid == primary || fb == some pid)))

/-- A sample provider result used in the concrete scenarios. -/
def sample_result : SummaryResult :=
  { summary := "Quarterly revenue grew 25 percent."
    key_points := ["Revenue up 25 percent"]
    entities := [Entity.mk "money" "$1,234.56"]
    tokens_used := 42
    cost := 21 / 1000
    provider_used := "OpenAI/gpt-4" }

/-- A configured, available provider whose backend call always fails. -/
def failing_provider : AIProvider :=
  { available := true
    input_cost_per_1k := 3 / 100
    output_cost_per_1k := 6 / 100
    estimate_tokens := fun t => t.length / 4
    summarize := fun _ => Except.error "OpenAI summarization failed: boom" }

/-- A configured, available provider whose backend call always succeeds. -/
def ok_provider : AIProvider :=
  { available := true
    input_cost_per_1k := 8 / 1000
    output_cost_per_1k := 24 / 1000
    estimate_tokens := fun t => t.length / 4
    summarize := fun _ => Except.ok sample_result }

/-- A provider constructed without credentials: not available. -/
def unavailable_provider : AIProvider :=
  { available := false
    input_cost_per_1k := 1 / 4000
    output_cost_per_1k := 1 / 2000
    estimate_tokens := fun t => t.length / 4
    summarize := fun _ => Except.error "Google API key not configured" }

/-- A registry whose single provider is both the primary and its own fallback. -/
def m_self_fallback : AIProviderManager :=
  [(AIProviderEnum.openai_gpt4, failing_provider)]

/-- A registry with a failing primary, a succeeding fallback and a third
available provider. -/
def m_three : AIProviderManager :=
  [(AIProviderEnum.openai_gpt4, failing_provider),
   (AIProviderEnum.anthropic_claude, ok_provider),
   (AIProviderEnum.google_gemini, ok_provider)]

/-- A registry in which every registered provider fails or is unavailable. -/
def m_exhausted : AIProviderManager :=
  [(AIProviderEnum.openai_gpt4, failing_provider),
   (AIProviderEnum.google_gemini, unavailable_provider)]

/-- A job currently being worked on. -/
def processingJob : Job :=
  { freshJob with status := JobStatus.processing, started_at := some 0 }

/-- A concrete stand-in for `re.findall` in which each of the four fixed
patterns finds exactly one match. -/
def sample_findall : String → String → List String := fun pat _ =>
  if pat = email_pattern then ["john@acme.com"]
  else if pat = url_pattern then ["https://acme.com"]
  else if pat = date_pattern then ["12/31/2024"]
  else if pat = money_pattern then ["$1,234.56"]
  else []

/-- The bullet lines of a response: trimmed lines beginning with a bullet
glyph, with the leading glyphs and spaces stripped (the key-point contract
without the first-5 truncation). -/
def bullet_lines (text : String) : List String :=
  (((pySplit text "\n").map pyStrip).filter (fun line =>
    line != "" &&
      (pyStartsWith line "•" || pyStartsWith line "-" || pyStartsWith line "*"))).map
    (fun line => pyLstrip line (fun c => is_bullet_char c || c = ' '))

/-- The summary body as the code extracts it, described directly: the text
between the first `SUMMARY:` marker and the following `SUMMARY:` marker (if
any), truncated at the first `KEY POINTS:` marker, trimmed. -/
def amended_summary_body (content : String) : String :=
  pyStrip ((pySplit ((pySplit content "SUMMARY:").getD 1 "") "KEY POINTS:").getD 0 "")

/-- `pid` is an exhausted candidate: if it resolves to a registered provider
at all, that provider is unavailable or its call on this text fails. -/
def candidate_fails (m : AIProviderManager) (text : String)
    (pid : AIProviderEnum) : Prop :=
  ∀ p, get_provider m pid = some p →
    (p.available = false ∨ (p.summarize text).isOk = false)

/-- The result of attempting a candidate list in order: the first success,
or the exhaustion error once the list runs out.  Unregistered ids are
skipped. -/
def chain_result (m : AIProviderManager) (text : String) :
    List AIProviderEnum → Except String SummaryResult
  | [] => Except.error "All AI providers failed or unavailable"
  | pid :: rest =>
    match get_provider m pid with
    | some p =>
      match p.summarize text with
      | Except.ok r => Except.ok r
      | Except.error _ => chain_result m text rest
    | none => chain_result m text rest

/-- C2 counterexample: a job whose every attempt fails (default
`max_retries = 3`) is put back to pending with scheduled delays `[2, 4]` only
— not `[2, 4, 8]` as claimed — because `retry_count` is incremented before the
`retry_count < max_retries` check; the third attempt is terminal. -/
theorem retry_backoff_cex :
    (run_attempts "doc" true 9 ["e1", "e2", "e3", "e4"] freshJob).1 = [2, 4] ∧
    ¬((run_attempts "doc" true 9 ["e1", "e2", "e3", "e4"] freshJob).1 = [2, 4, 8]) ∧
    (run_attempts "doc" true 9 ["e1", "e2", "e3", "e4"] freshJob).2.status =
      JobStatus.failed ∧
    (run_attempts "doc" true 9 ["e1", "e2", "e3", "e4"] freshJob).2.retry_count = 3 := by
  refine ⟨rfl, ?_, rfl, rfl⟩
  intro h
  simp [run_attempts, process_document, handle_failure, freshJob] at h

/-- C2 (amended): for a job whose every attempt fails, each failure increments
`retry_count` and, while `retry_count < max_retries`, sets the job back to
pending with a retry scheduled after `2 ^ retry_count` seconds; with the
default `max_retries = 3` the job loops pending→processing→pending exactly 2
times with scheduled delays 2 and 4 seconds, and the third attempt lands it in
`failed` with `retry_count = max_retries`, `completed_at` set and
`error_message` holding the last failure description. -/
theorem retry_backoff_amended (e1 e2 e3 text : String) (t : Nat)
    (htext : ¬(text = "")) :
    run_attempts text true t [e1, e2, e3] freshJob =
      ([2, 4],
        { freshJob with
            status := JobStatus.failed
            retry_count := 3
            error_message := some e3
            started_at := some t
            completed_at := some t }) := by
  simp [run_attempts, process_document, handle_failure, freshJob, htext]

/-- Witness for `retry_backoff_amended` at a concrete failing job. -/
theorem retry_backoff_amended_witness :
    run_attempts "doc" true 5 ["a", "b", "c"] freshJob =
      ([2, 4],
        { freshJob with
            status := JobStatus.failed
            retry_count := 3
            error_message := some "c"
            started_at := some 5
            completed_at := some 5 }) :=
  retry_backoff_amended "a" "b" "c" "doc" 5 (by decide)

/-- C3: the lifecycle driver never re-checks the persisted status before its
final write, so a job cancelled while its provider call is in flight is
overwritten: the success write-back turns the cancelled job into `completed`
and persists the summary and cost instead of discarding them, and a whole
driver run on an already-cancelled job does the same. -/
theorem terminal_cancelled_overwritten :
    (cancel_job processingJob 1).map
        (fun jc =>
          ((write_success jc sample_result 0 3).status,
            (write_success jc sample_result 0 3).summary,
            (write_success jc sample_result 0 3).actual_cost)) =
      Except.ok
        (JobStatus.completed, some "Quarterly revenue grew 25 percent.",
          some (21 / 1000 : ℚ)) ∧
    (process_document { freshJob with status := JobStatus.cancelled, completed_at := some 1 }
        "doc" (Except.ok sample_result) true 2 3).1.status = JobStatus.completed ∧
    (process_document { freshJob with status := JobStatus.cancelled, completed_at := some 1 }
        "doc" (Except.ok sample_result) true 2 3).1.summary =
      some "Quarterly revenue grew 25 percent." := by
  refine ⟨rfl, rfl, rfl⟩

/-- C7 counterexample: empty extracted text on a fresh job is retried — the
run ends with a scheduled 2-second retry and the job back in pending — rather
than going to the terminal failure path. -/
theorem empty_extraction_retried_cex :
    (process_document freshJob "" (Except.ok sample_result) true 0 0).2 =
        TaskOutcome.retryScheduled 2 "No text could be extracted from document" ∧
    (process_document freshJob "" (Except.ok sample_result) true 0 0).1.status =
        JobStatus.pending :=
  ⟨rfl, rfl⟩

/-- C7 (amended): empty extracted text goes directly to the common failure
path — the provider chain's outcome is never consulted — but it is handled
exactly like a transient provider failure with the message "No text could be
extracted from document", and is therefore retried under the same policy. -/
theorem empty_extraction_amended (job : Job) (outcome : Except String SummaryResult)
    (selfPresent : Bool) (t1 t2 : Nat) :
    process_document job "" outcome selfPresent t1 t2 =
      process_document job "nonempty text"
        (Except.error "No text could be extracted from document") selfPresent t1 t2 :=
  rfl

/-- C1 counterexample: with a single failing provider configured as both the
primary and its own fallback, the code attempts it twice — the fallback
attempt is not guarded by distinctness from the primary — whereas the claimed
ordering (fallback only when distinct from the primary) predicts a single
attempt before exhaustion. -/
theorem fallback_distinctness_cex :
    (summarize_with_fallback m_self_fallback "doc" AIProviderEnum.openai_gpt4
        (some AIProviderEnum.openai_gpt4) false false).2 =
      [AIProviderEnum.openai_gpt4, AIProviderEnum.openai_gpt4] ∧
    attempts_until_success m_self_fallback "doc"
        (spec_candidates_distinct m_self_fallback AIProviderEnum.openai_gpt4
          (some AIProviderEnum.openai_gpt4)) =
      [AIProviderEnum.openai_gpt4] ∧
    ¬((summarize_with_fallback m_self_fallback "doc" AIProviderEnum.openai_gpt4
        (some AIProviderEnum.openai_gpt4) false false).2 =
      attempts_until_success m_self_fallback "doc"
        (spec_candidates_distinct m_self_fallback AIProviderEnum.openai_gpt4
          (some AIProviderEnum.openai_gpt4))) :=
  ⟨by decide, by decide, by decide⟩

/-- C5: when demo mode is on, only the demo simulator is invoked — the trace
of real providers is empty and a demo failure is terminal — and a successful
demo result has `tokens_used = len(text) // 4`, `cost = tokens_used * 0.001`,
`provider_used = "Demo/" + primary id`, a fixed 5-entry key-point list and a
fixed 5-entry entity list. -/
theorem demo_mode_spec (m : AIProviderManager) (text : String)
    (primary : AIProviderEnum) (fb : Option AIProviderEnum) (demoFails : Bool) :
    summarize_with_fallback m text primary fb true demoFails =
      (demo_summarize text primary demoFails, []) ∧
    (∀ r, demo_summarize text primary demoFails = Except.ok r →
      r.tokens_used = text.length / 4 ∧
      r.cost = (r.tokens_used : ℚ) * (1 / 1000) ∧
      r.provider_used = "Demo/" ++ primary.value ∧
      r.key_points.length = 5 ∧
      r.entities.length = 5) := by
  refine ⟨rfl, ?_⟩
  intro r hr
  cases demoFails with
  | true => exact absurd hr (by simp [demo_summarize])
  | false =>
    simp only [demo_summarize, Bool.false_eq_true, if_false, Except.ok.injEq] at hr
    subst hr
    exact ⟨rfl, rfl, rfl, rfl, rfl⟩

/-- Witness for `demo_mode_spec` at a concrete demo call. -/
theorem demo_mode_spec_witness :
    summarize_with_fallback [] "hello world" AIProviderEnum.openai_gpt4 none true false =
      (demo_summarize "hello world" AIProviderEnum.openai_gpt4 false, []) ∧
    (demo_summarize "hello world" AIProviderEnum.openai_gpt4 false).toOption.map
        SummaryResult.tokens_used = some ("hello world".length / 4) ∧
    (demo_summarize "hello world" AIProviderEnum.openai_gpt4 false).toOption.map
        SummaryResult.provider_used =
      some ("Demo/" ++ AIProviderEnum.openai_gpt4.value) := by
  refine ⟨(demo_mode_spec [] "hello world" AIProviderEnum.openai_gpt4 none false).1,
    ?_, ?_⟩
  · exact congrArg some
      (((demo_mode_spec [] "hello world" AIProviderEnum.openai_gpt4 none false).2
        _ rfl).1)
  · exact congrArg some
      (((demo_mode_spec [] "hello world" AIProviderEnum.openai_gpt4 none false).2
        _ rfl).2.2.1)

/-- C6: for every registered provider, `estimate_cost` is exactly
`(inputTokens/1000)*inRate + (outputTokens/1000)*outRate`, with `inputTokens`
the provider's token estimate for the text and
`outputTokens = inputTokens / 5` (integer division); an unknown provider id
yields 0 rather than an error. -/
theorem estimate_cost_spec (m : AIProviderManager) (text : String)
    (provider : AIProviderEnum) :
    (∀ p, get_provider m provider = some p →
      AIProviderManager.estimate_cost m text provider =
        ((p.estimate_tokens text : ℚ) / 1000) * p.input_cost_per_1k +
          (((p.estimate_tokens text / 5 : Nat) : ℚ) / 1000) * p.output_cost_per_1k) ∧
    (get_provider m provider = none →
      AIProviderManager.estimate_cost m text provider = 0) := by
  constructor
  · intro p hp
    simp [AIProviderManager.estimate_cost, hp, AIProvider.estimate_cost]
  · intro h
    simp [AIProviderManager.estimate_cost, h]

/-- Witness for `estimate_cost_spec`: a registered provider with rates
0.03/0.06 on a 10-character text (2 estimated tokens, 0 output tokens), and
an empty registry. -/
theorem estimate_cost_spec_witness :
    AIProviderManager.estimate_cost m_three "0123456789" AIProviderEnum.openai_gpt4 =
      3 / 50000 ∧
    AIProviderManager.estimate_cost [] "0123456789" AIProviderEnum.openai_gpt4 = 0 := by
  constructor
  · have h := (estimate_cost_spec m_three "0123456789" AIProviderEnum.openai_gpt4).1
      failing_provider rfl
    rw [h]
    have h4 : "0123456789".length / 4 = 2 := by decide
    simp only [failing_provider]
    norm_num [h4]
  · exact (estimate_cost_spec [] "0123456789" AIProviderEnum.openai_gpt4).2 rfl

/-- C9: whenever the exact tokenizer is unavailable, the token estimate of
every provider backend is `len(text) // 4`. -/
theorem estimate_tokens_fallback_spec (text : String) :
    OpenAIProvider.estimate_tokens none text = text.length / 4 ∧
    AnthropicProvider.estimate_tokens text = text.length / 4 ∧
    GoogleProvider.estimate_tokens text = text.length / 4 :=
  ⟨rfl, rfl, rfl⟩

/-- C8 counterexample: on a response whose `SUMMARY:` section is followed
directly by an `ENTITIES:` section (no `KEY POINTS:`), the code's summary
body runs through the `ENTITIES:` marker instead of stopping at the next
recognized section marker as claimed. -/
theorem parse_summary_marker_cex :
    OpenAIProvider.parse_summary
        "SUMMARY:\nAlpha beta.\nENTITIES:\n- Acme: Organization" =
      "Alpha beta.\nENTITIES:\n- Acme: Organization" ∧
    spec_summary_body "SUMMARY:\nAlpha beta.\nENTITIES:\n- Acme: Organization" =
      "Alpha beta." ∧
    ¬(OpenAIProvider.parse_summary
        "SUMMARY:\nAlpha beta.\nENTITIES:\n- Acme: Organization" =
      spec_summary_body "SUMMARY:\nAlpha beta.\nENTITIES:\n- Acme: Organization") :=
  ⟨by decide, by decide, by decide⟩

/-- C8 (amended): the response parsing is identical for every provider
backend; the summary body is the text after the first `SUMMARY:` marker (up
to a following `SUMMARY:` marker, if any) truncated at the first
`KEY POINTS:` marker, trimmed; and the key points are the first 5 trimmed
lines beginning with a bullet glyph (`•`, `-` or `*`) with the leading glyphs
stripped — in particular never more than 5. -/
theorem parse_contract_amended (content : String) :
    OpenAIProvider.parse_summary content = AnthropicProvider.parse_summary content ∧
    AnthropicProvider.parse_summary content = GoogleProvider.parse_summary content ∧
    OpenAIProvider.parse_summary content =
      (if pyContains content "SUMMARY:" then amended_summary_body content else "") ∧
    extract_key_points content = (bullet_lines content).take 5 ∧
    (extract_key_points content).length ≤ 5 := by
  refine ⟨rfl, rfl, rfl, rfl, ?_⟩
  rw [show extract_key_points content = (bullet_lines content).take 5 from rfl,
    List.length_take]
  exact min_le_left _ _

/-- C10: entity extraction concatenates the per-category matches over the
original source text in the fixed order email, URL, date, dollar amount,
truncated to the first 10 entries; with exactly one match per category the
result is those four entities in exactly that category order. -/
theorem extract_entities_order (findall : String → String → List String)
    (text : String) :
    (extract_entities findall text).length ≤ 10 ∧
    (∀ e u d a : String,
      findall email_pattern text = [e] → findall url_pattern text = [u] →
      findall date_pattern text = [d] → findall money_pattern text = [a] →
      extract_entities findall text =
        [Entity.mk "email" e, Entity.mk "url" u, Entity.mk "date" d,
          Entity.mk "money" a]) := by
  constructor
  · rw [show extract_entities findall text =
      (((findall email_pattern text).map (fun v => Entity.mk "email" v)) ++
        ((findall url_pattern text).map (fun v => Entity.mk "url" v)) ++
        ((findall date_pattern text).map (fun v => Entity.mk "date" v)) ++
        ((findall money_pattern text).map (fun v => Entity.mk "money" v))).take 10
        from rfl, List.length_take]
    exact min_le_left _ _
  · intro e u d a he hu hd ha
    simp [extract_entities, he, hu, hd, ha]

/-- Witness for `extract_entities_order` with a concrete `findall` yielding
one match per category. -/
theorem extract_entities_order_witness :
    (extract_entities sample_findall "contact john@acme.com").length ≤ 10 ∧
    extract_entities sample_findall "contact john@acme.com" =
      [Entity.mk "email" "john@acme.com", Entity.mk "url" "https://acme.com",
        Entity.mk "date" "12/31/2024", Entity.mk "money" "$1,234.56"] := by
  have h := extract_entities_order sample_findall "contact john@acme.com"
  exact ⟨h.1, h.2 _ _ _ _ (by decide) (by decide) (by decide) (by decide)⟩



/-- With unique registry keys, dict lookup finds exactly the registered pair. -/
theorem get_provider_eq_some_iff (m : AIProviderManager)
    (hnd : (m.map Prod.fst).Nodup) (pid : AIProviderEnum) (p : AIProvider) :
    get_provider m pid = some p ↔ (pid, p) ∈ m := by
  induction m with
  | nil => simp [get_provider]
  | cons pr rest ih =>
    rw [List.map_cons, List.nodup_cons] at hnd
    by_cases hk : pr.1 = pid
    · have hfind : (pr :: rest).find? (fun x => x.1 == pid) = some pr :=
        List.find?_cons_of_pos _ (by simp [hk])
      rw [get_provider, hfind]
      constructor
      · intro h
        have hp : p = pr.2 := by simpa using h.symm
        subst hp
        have hpr : (pid, pr.2) = pr := by rw [← hk]
        rw [hpr]
        exact List.mem_cons_self _ _
      · intro h
        rcases List.mem_cons.mp h with h1 | h2
        · rw [← h1]
          rfl
        · exact absurd
            (by simpa using List.mem_map_of_mem Prod.fst h2 : pid ∈ rest.map Prod.fst)
            (by rw [hk] at hnd; exact hnd.1)
    · have hfind : (pr :: rest).find? (fun x => x.1 == pid) =
          rest.find? (fun x => x.1 == pid) :=
        List.find?_cons_of_neg _ (by simp [hk])
      rw [get_provider, hfind]
      rw [get_provider] at ih
      rw [ih hnd.2]
      constructor
      · exact fun h => List.mem_cons_of_mem _ h
      · intro h
        rcases List.mem_cons.mp h with h1 | h2
        · exact absurd (congrArg Prod.fst h1.symm) hk
        · exact h2

/-- Membership in the available-provider listing, characterized. -/
theorem mem_get_available_iff (m : AIProviderManager) (pid : AIProviderEnum) :
    pid ∈ get_available_providers m ↔ ∃ p, (pid, p) ∈ m ∧ p.available = true := by
  simp only [get_available_providers, List.mem_map, List.mem_filter]
  constructor
  · rintro ⟨⟨k, q⟩, ⟨hm, hav⟩, rfl⟩
    exact ⟨q, hm, hav⟩
  · rintro ⟨q, hm, hav⟩
    exact ⟨(pid, q), ⟨hm, hav⟩, rfl⟩

/-- Attempting a candidate chain can only fail with the exhaustion error. -/
theorem chain_result_error_msg (m : AIProviderManager) (text : String) :
    ∀ (l : List AIProviderEnum) (e : String),
      chain_result m text l = Except.error e →
      e = "All AI providers failed or unavailable" := by
  intro l
  induction l with
  | nil =>
    intro e h
    rw [chain_result] at h
    exact (Except.error.inj h).symm
  | cons pid rest ih =>
    intro e h
    cases hgp : get_provider m pid with
    | none =>
      simp only [chain_result, hgp] at h
      exact ih e h
    | some p =>
      cases hs : p.summarize text with
      | ok r =>
        simp only [chain_result, hgp, hs] at h
        exact Except.noConfusion h
      | error e2 =>
        simp only [chain_result, hgp, hs] at h
        exact ih e h

/-- A candidate chain fails exactly when every registered candidate in it
fails. -/
theorem chain_result_error_iff (m : AIProviderManager) (text : String) :
    ∀ l : List AIProviderEnum,
      (chain_result m text l = Except.error "All AI providers failed or unavailable" ↔
        ∀ pid ∈ l, ∀ p, get_provider m pid = some p →
          (p.summarize text).isOk = false) := by
  intro l
  induction l with
  | nil => simp [chain_result]
  | cons pid rest ih =>
    cases hgp : get_provider m pid with
    | none =>
      simp only [chain_result, hgp]
      rw [ih]
      constructor
      · intro h q hq
        rcases List.mem_cons.mp hq with h1 | h2
        · intro p hp
          rw [h1, hgp] at hp
          exact absurd hp (by simp)
        · exact h q h2
      · intro h q hq
        exact h q (List.mem_cons_of_mem _ hq)
    | some p =>
      cases hs : p.summarize text with
      | ok r =>
        simp only [chain_result, hgp, hs]
        constructor
        · intro h
          exact absurd h (by simp)
        · intro h
          have h2 := h pid (List.mem_cons_self _ _) p hgp
          rw [hs] at h2
          exact Bool.noConfusion h2
      | error e2 =>
        simp only [chain_result, hgp, hs]
        rw [ih]
        constructor
        · intro h q hq
          rcases List.mem_cons.mp hq with h1 | h2
          · intro p2 hp2
            rw [h1, hgp] at hp2
            have hpp : p2 = p := (Option.some.inj hp2).symm
            subst hpp
            rw [hs]
            rfl
          · exact h q h2
        · intro h q hq
          exact h q (List.mem_cons_of_mem _ hq)

/-- The remaining-providers loop of `summarize_with_fallback`, characterized:
it filters out the primary and fallback ids and otherwise attempts the
candidates in order until the first success, accumulating the attempt trace. -/
theorem try_remaining_spec (m : AIProviderManager) (text : String)
    (primary : AIProviderEnum) (fb : Option AIProviderEnum) :
    ∀ (l tr : List AIProviderEnum),
      (∀ pid ∈ l, (pid == primary || fb == some pid) = false →
        (get_provider m pid).isSome = true) →
      try_remaining m text primary fb l tr =
        (chain_result m text
            (l.filter (fun pid => !(pid == primary || fb == some pid))),
          tr ++ attempts_until_success m text
            (l.filter (fun pid => !(pid == primary || fb == some pid)))) := by
  intro l
  induction l with
  | nil =>
    intro tr h
    simp [try_remaining, chain_result, attempts_until_success]
  | cons pid rest ih =>
    intro tr h
    by_cases hskip : (pid == primary || fb == some pid) = true
    · rw [List.filter_cons_of_neg (by simp [hskip])]
      rw [try_remaining, if_pos hskip]
      exact ih tr (fun q hq hq2 => h q (List.mem_cons_of_mem _ hq) hq2)
    · have hskip' : (pid == primary || fb == some pid) = false :=
        Bool.eq_false_iff.mpr hskip
      have hreg := h pid (List.mem_cons_self _ _) hskip'
      obtain ⟨p, hp⟩ := Option.isSome_iff_exists.mp hreg
      rw [List.filter_cons_of_pos (by simp [hskip'])]
      cases hs : p.summarize text with
      | ok r =>
        rw [try_remaining, if_neg hskip]
        simp only [hp, hs]
        simp only [chain_result, attempts_until_success, attempt_succeeds, hp, hs]
        simp [Except.isOk, Except.toBool]
      | error e2 =>
        rw [try_remaining, if_neg hskip]
        simp only [hp, hs]
        rw [ih (tr ++ [pid]) (fun q hq hq2 => h q (List.mem_cons_of_mem _ hq) hq2)]
        simp only [chain_result, attempts_until_success, attempt_succeeds, hp, hs]
        simp [Except.isOk, Except.toBool, List.append_assoc]

/-- The non-demo path of `summarize_with_fallback`, characterized: it attempts
exactly the candidates of `fallback_chain` in order, stopping at the first
success, and returns that chain's result. -/
theorem summarize_with_fallback_spec (m : AIProviderManager) (text : String)
    (primary : AIProviderEnum) (fb : Option AIProviderEnum) (df : Bool)
    (hnd : (m.map Prod.fst).Nodup) :
    summarize_with_fallback m text primary fb false df =
      (chain_result m text (fallback_chain m primary fb),
        attempts_until_success m text (fallback_chain m primary fb)) := by
  have havail : ∀ pid ∈ get_available_providers m,
      (pid == primary || fb == some pid) = false →
      (get_provider m pid).isSome = true := by
    intro pid hpid _
    obtain ⟨p, hm, _⟩ := (mem_get_available_iff m pid).mp hpid
    rw [(get_provider_eq_some_iff m hnd pid p).mpr hm]
    rfl
  have htr := try_remaining_spec m text primary fb (get_available_providers m)
  cases hgp : get_provider m primary with
  | some p =>
    cases hpav : p.available with
    | true =>
      cases hps : p.summarize text with
      | ok r =>
        simp [summarize_with_fallback, fallback_chain, is_attemptable, chain_result,
          attempts_until_success, attempt_succeeds, hgp, hpav, hps, Except.isOk,
          Except.toBool]
      | error e =>
        cases fb with
        | none =>
          simp only [summarize_with_fallback, hgp, hpav, hps]
          simp only [Bool.false_eq_true, if_false, if_true]
          rw [htr _ havail]
          simp [fallback_chain, is_attemptable, chain_result, attempts_until_success,
            attempt_succeeds, hgp, hpav, hps, Except.isOk, Except.toBool]
        | some f =>
          cases hgf : get_provider m f with
          | none =>
            simp only [summarize_with_fallback, hgp, hpav, hps, hgf]
            simp only [Bool.false_eq_true, if_false, if_true]
            rw [htr _ havail]
            simp [fallback_chain, is_attemptable, chain_result, attempts_until_success,
              attempt_succeeds, hgp, hpav, hps, hgf, Except.isOk, Except.toBool]
          | some q =>
            cases hqav : q.available with
            | false =>
              simp only [summarize_with_fallback, hgp, hpav, hps, hgf, hqav]
              simp only [Bool.false_eq_true, if_false, if_true]
              rw [htr _ havail]
              simp [fallback_chain, is_attemptable, chain_result, attempts_until_success,
                attempt_succeeds, hgp, hpav, hps, hgf, hqav, Except.isOk, Except.toBool]
            | true =>
              cases hqs : q.summarize text with
              | ok r =>
                simp [summarize_with_fallback, fallback_chain, is_attemptable,
                  chain_result, attempts_until_success, attempt_succeeds, hgp, hpav,
                  hps, hgf, hqav, hqs, Except.isOk, Except.toBool]
              | error e2 =>
                simp only [summarize_with_fallback, hgp, hpav, hps, hgf, hqav, hqs]
                simp only [Bool.false_eq_true, if_false, if_true]
                rw [htr _ havail]
                simp [fallback_chain, is_attemptable, chain_result,
                  attempts_until_success, attempt_succeeds, hgp, hpav, hps, hgf, hqav,
                  hqs, Except.isOk, Except.toBool]
    | false =>
      cases fb with
      | none =>
        simp only [summarize_with_fallback, hgp, hpav]
        simp only [Bool.false_eq_true, if_false, if_true]
        rw [htr _ havail]
        simp [fallback_chain, is_attemptable, chain_result, attempts_until_success,
          attempt_succeeds, hgp, hpav, Except.isOk, Except.toBool]
      | some f =>
        cases hgf : get_provider m f with
        | none =>
          simp only [summarize_with_fallback, hgp, hpav, hgf]
          simp only [Bool.false_eq_true, if_false, if_true]
          rw [htr _ havail]
          simp [fallback_chain, is_attemptable, chain_result, attempts_until_success,
            attempt_succeeds, hgp, hpav, hgf, Except.isOk, Except.toBool]
        | some q =>
          cases hqav : q.available with
          | false =>
            simp only [summarize_with_fallback, hgp, hpav, hgf, hqav]
            simp only [Bool.false_eq_true, if_false, if_true]
            rw [htr _ havail]
            simp [fallback_chain, is_attemptable, chain_result, attempts_until_success,
              attempt_succeeds, hgp, hpav, hgf, hqav, Except.isOk, Except.toBool]
          | true =>
            cases hqs : q.summarize text with
            | ok r =>
              simp [summarize_with_fallback, fallback_chain, is_attemptable,
                chain_result, attempts_until_success, attempt_succeeds, hgp, hpav, hgf,
                hqav, hqs, Except.isOk, Except.toBool]
            | error e2 =>
              simp only [summarize_with_fallback, hgp, hpav, hgf, hqav, hqs]
              simp only [Bool.false_eq_true, if_false, if_true]
              rw [htr _ havail]
              simp [fallback_chain, is_attemptable, chain_result, attempts_until_success,
                attempt_succeeds, hgp, hpav, hgf, hqav, hqs, Except.isOk, Except.toBool]
  | none =>
    cases fb with
    | none =>
      simp only [summarize_with_fallback, hgp]
      simp only [Bool.false_eq_true, if_false, if_true]
      rw [htr _ havail]
      simp [fallback_chain, is_attemptable, chain_result, attempts_until_success,
        attempt_succeeds, hgp, Except.isOk, Except.toBool]
    | some f =>
      cases hgf : get_provider m f with
      | none =>
        simp only [summarize_with_fallback, hgp, hgf]
        simp only [Bool.false_eq_true, if_false, if_true]
        rw [htr _ havail]
        simp [fallback_chain, is_attemptable, chain_result, attempts_until_success,
          attempt_succeeds, hgp, hgf, Except.isOk, Except.toBool]
      | some q =>
        cases hqav : q.available with
        | false =>
          simp only [summarize_with_fallback, hgp, hgf, hqav]
          simp only [Bool.false_eq_true, if_false, if_true]
          rw [htr _ havail]
          simp [fallback_chain, is_attemptable, chain_result, attempts_until_success,
            attempt_succeeds, hgp, hgf, hqav, Except.isOk, Except.toBool]
        | true =>
          cases hqs : q.summarize text with
          | ok r =>
            simp [summarize_with_fallback, fallback_chain, is_attemptable, chain_result,
              attempts_until_success, attempt_succeeds, hgp, hgf, hqav, hqs,
              Except.isOk, Except.toBool]
          | error e2 =>
            simp only [summarize_with_fallback, hgp, hgf, hqav, hqs]
            simp only [Bool.false_eq_true, if_false, if_true]
            rw [htr _ havail]
            simp [fallback_chain, is_attemptable, chain_result, attempts_until_success,
              attempt_succeeds, hgp, hgf, hqav, hqs, Except.isOk, Except.toBool]

/-- Every candidate in the code's attempt chain failing is the same as: the
primary is exhausted, the fallback (when present) is exhausted, and every
registered provider is unavailable or failing. -/
theorem chain_exhausted_iff (m : AIProviderManager) (text : String)
    (primary : AIProviderEnum) (fb : Option AIProviderEnum)
    (hnd : (m.map Prod.fst).Nodup) :
    (∀ pid ∈ fallback_chain m primary fb, ∀ p, get_provider m pid = some p →
      (p.summarize text).isOk = false) ↔
    (candidate_fails m text primary ∧
      (∀ f, fb = some f → candidate_fails m text f) ∧
      ∀ pr ∈ m, pr.2.available = false ∨ (pr.2.summarize text).isOk = false) := by
  constructor
  · intro h
    have hCFp : candidate_fails m text primary := by
      intro p hp
      cases hpav : p.available with
      | false => exact Or.inl rfl
      | true =>
        refine Or.inr (h primary ?_ p hp)
        simp [fallback_chain, is_attemptable, hp, hpav]
    have hCFf : ∀ f, fb = some f → candidate_fails m text f := by
      intro f hfb p hp
      cases hpav : p.available with
      | false => exact Or.inl rfl
      | true =>
        refine Or.inr (h f ?_ p hp)
        subst hfb
        simp [fallback_chain, is_attemptable, hp, hpav]
    refine ⟨hCFp, hCFf, ?_⟩
    rintro ⟨k, q⟩ hm
    cases hqav : q.available with
    | false => exact Or.inl rfl
    | true =>
      have hgp : get_provider m k = some q :=
        (get_provider_eq_some_iff m hnd k q).mpr hm
      by_cases hskip : (k == primary || fb == some k) = true
      · rcases Bool.or_eq_true_iff.mp hskip with hp1 | hp2
        · have hk : k = primary := by simpa using hp1
          rcases hCFp q (hk ▸ hgp) with hav | hfail
          · rw [hqav] at hav
            exact Bool.noConfusion hav
          · exact Or.inr hfail
        · have hfbk : fb = some k := by simpa using hp2
          rcases hCFf k hfbk q hgp with hav | hfail
          · rw [hqav] at hav
            exact Bool.noConfusion hav
          · exact Or.inr hfail
      · have hskip' : (k == primary || fb == some k) = false :=
          Bool.eq_false_iff.mpr hskip
        have hmem : k ∈ fallback_chain m primary fb := by
          refine List.mem_append.mpr (Or.inr ?_)
          refine List.mem_filter.mpr ⟨?_, by simp [hskip']⟩
          exact (mem_get_available_iff m k).mpr ⟨q, hm, hqav⟩
        exact Or.inr (h k hmem q hgp)
  · rintro ⟨h1, h2, h3⟩ pid hmem p hp
    rcases List.mem_append.mp hmem with h12 | hseg3
    · rcases List.mem_append.mp h12 with hseg1 | hseg2
      · by_cases hatt : is_attemptable m primary = true
        · rw [if_pos hatt] at hseg1
          have hpid : pid = primary := by simpa using hseg1
          subst hpid
          rcases h1 p hp with hav | hfail
          · simp only [is_attemptable, hp] at hatt
            rw [hav] at hatt
            exact Bool.noConfusion hatt
          · exact hfail
        · rw [if_neg hatt] at hseg1
          exact absurd hseg1 (List.not_mem_nil _)
      · cases hfb : fb with
        | none =>
          rw [hfb] at hseg2
          exact absurd hseg2 (List.not_mem_nil _)
        | some f =>
          rw [hfb] at hseg2
          have hseg2x : pid ∈ (if is_attemptable m f = true then [f] else []) := hseg2
          by_cases hatt : is_attemptable m f = true
          · rw [if_pos hatt] at hseg2x
            have hpid : pid = f := by simpa using hseg2x
            subst hpid
            rcases h2 pid hfb p hp with hav | hfail
            · simp only [is_attemptable, hp] at hatt
              rw [hav] at hatt
              exact Bool.noConfusion hatt
            · exact hfail
          · rw [if_neg hatt] at hseg2x
            exact absurd hseg2x (List.not_mem_nil _)
    · obtain ⟨hav_mem, _⟩ := List.mem_filter.mp hseg3
      obtain ⟨q, hqm, hqav⟩ := (mem_get_available_iff m pid).mp hav_mem
      have hgpq : get_provider m pid = some q :=
        (get_provider_eq_some_iff m hnd pid q).mpr hqm
      rw [hgpq] at hp
      have hpq : p = q := (Option.some.inj hp).symm
      subst hpq
      rcases h3 (pid, p) hqm with hav | hfail
      · rw [hqav] at hav
        exact Bool.noConfusion hav
      · exact hfail

/-- C1 (amended): outside demo mode the providers are attempted in this exact
order until the first success: the primary if configured and available, then
the fallback if present, configured and available — even when it equals the
primary, there is no distinctness check — then every remaining available
provider in registry iteration order.  In particular, when the primary fails
and a distinct fallback succeeds, the returned result is the fallback's and
the trace is exactly [primary, fallback]: no third provider is invoked. -/
theorem fallback_order_amended (m : AIProviderManager) (text : String)
    (primary : AIProviderEnum) (fb : Option AIProviderEnum) (df : Bool)
    (hnd : (m.map Prod.fst).Nodup) :
    (summarize_with_fallback m text primary fb false df).2 =
      attempts_until_success m text (fallback_chain m primary fb) ∧
    (∀ p q r f, get_provider m primary = some p → p.available = true →
      (p.summarize text).isOk = false →
      fb = some f → ¬(f = primary) → get_provider m f = some q →
      q.available = true → q.summarize text = Except.ok r →
      (summarize_with_fallback m text primary fb false df).1 = Except.ok r ∧
      (summarize_with_fallback m text primary fb false df).2 = [primary, f]) := by
  have hspec := summarize_with_fallback_spec m text primary fb df hnd
  constructor
  · rw [hspec]
  · intro p q r f hgp hpav hpfail hfb hne hgf hqav hqs
    subst hfb
    cases hps : p.summarize text with
    | ok r0 =>
      rw [hps] at hpfail
      exact absurd hpfail (by simp [Except.isOk, Except.toBool])
    | error e =>
      have hchain : fallback_chain m primary (some f) =
          primary :: f :: ((get_available_providers m).filter
            (fun pid =>
              !(pid == primary || (some f : Option AIProviderEnum) == some pid))) := by
        simp [fallback_chain, is_attemptable, hgp, hpav, hgf, hqav]
      rw [hspec, hchain]
      constructor
      · simp [chain_result, hgp, hps, hgf, hqs]
      · simp [attempts_until_success, attempt_succeeds, hgp, hps, hgf, hqs,
          Except.isOk, Except.toBool]

/-- C4: outside demo mode the call fails exactly when the primary, the
fallback (when present) and every registered provider have failed or were
unavailable, and then it fails with the "All AI providers failed or
unavailable" error -- the only error this call can produce: an individual
provider failure is never propagated raw. -/
theorem exhaustion_spec (m : AIProviderManager) (text : String)
    (primary : AIProviderEnum) (fb : Option AIProviderEnum) (df : Bool)
    (hnd : (m.map Prod.fst).Nodup) :
    ((summarize_with_fallback m text primary fb false df).1 =
        Except.error "All AI providers failed or unavailable" ↔
      (candidate_fails m text primary ∧
        (∀ f, fb = some f → candidate_fails m text f) ∧
        ∀ pr ∈ m, pr.2.available = false ∨ (pr.2.summarize text).isOk = false)) ∧
    (∀ e, (summarize_with_fallback m text primary fb false df).1 = Except.error e →
      e = "All AI providers failed or unavailable") := by
  have hspec := summarize_with_fallback_spec m text primary fb df hnd
  rw [hspec]
  constructor
  · exact (chain_result_error_iff m text _).trans (chain_exhausted_iff m text primary fb hnd)
  · intro e h
    exact chain_result_error_msg m text _ e h

/-- Witness for `fallback_order_amended`: a failing primary, a succeeding
distinct fallback and a third available provider that is never invoked. -/
theorem fallback_order_amended_witness :
    (summarize_with_fallback m_three "doc" AIProviderEnum.openai_gpt4
        (some AIProviderEnum.anthropic_claude) false false).2 =
      attempts_until_success m_three "doc"
        (fallback_chain m_three AIProviderEnum.openai_gpt4
          (some AIProviderEnum.anthropic_claude)) ∧
    (summarize_with_fallback m_three "doc" AIProviderEnum.openai_gpt4
        (some AIProviderEnum.anthropic_claude) false false).1 =
      Except.ok sample_result ∧
    (summarize_with_fallback m_three "doc" AIProviderEnum.openai_gpt4
        (some AIProviderEnum.anthropic_claude) false false).2 =
      [AIProviderEnum.openai_gpt4, AIProviderEnum.anthropic_claude] := by
  have h := fallback_order_amended m_three "doc" AIProviderEnum.openai_gpt4
    (some AIProviderEnum.anthropic_claude) false (by decide)
  have h2 := h.2 failing_provider ok_provider sample_result
    AIProviderEnum.anthropic_claude rfl rfl rfl rfl (by decide) rfl rfl rfl
  exact ⟨h.1, h2.1, h2.2⟩

/-- Witness for `exhaustion_spec`: a registry with one failing and one
unavailable provider and no fallback. -/
theorem exhaustion_spec_witness :
    (summarize_with_fallback m_exhausted "doc" AIProviderEnum.openai_gpt4 none false
        false).1 = Except.error "All AI providers failed or unavailable" := by
  refine ((exhaustion_spec m_exhausted "doc" AIProviderEnum.openai_gpt4 none false
    (by decide)).1).mpr ⟨?_, ?_, ?_⟩
  · intro p hp
    have hp2 : failing_provider = p := Option.some.inj hp
    rw [← hp2]
    exact Or.inr rfl
  · intro f hf
    exact Option.noConfusion hf
  · decide
